import Mathlib

/-!
Shallow embedding of the paralympics FastAPI backend
(`src/backend/models/schemas.py`, `src/backend/services/games_service.py`,
`src/backend/services/quiz_service.py`, `src/backend/routes/games_router.py`,
`src/backend/routes/quiz_router.py`).

The database session is modelled as the list of persisted rows of the table
an operation touches; SQL primary-key lookup, deletion and the chart join are
modelled as list operations.  Python floats (`Host.latitude`/`longitude`) are
modelled as rationals: the code only stores and copies them, no floating-point
arithmetic ever occurs.  `HTTPException` is modelled by `HTTPError`; pydantic
validators raising `ValueError` are modelled by `Except String`.
-/

namespace Paralympics

deriving instance DecidableEq for Except

/-- Python `str.lower()`: lower-case each character (structural recursion on
the character list, so that terms evaluate definitionally). -/
def strLower (s : String) : String := ⟨s.data.map Char.toLower⟩

/-- `fastapi.exceptions.HTTPException`, reduced to the data the code sets. -/
structure HTTPError where
  status_code : Nat
  detail : String
  deriving Repr, DecidableEq

/-- A persisted `Games` table row.  The field list is `GamesBase` from
`schemas.py` plus the surrogate `id` of the table model (the table module
`backend/models/models.py` is not in the sources; per the spec every entity
is identified by a surrogate integer id). -/
structure GamesRow where
  id : Nat
  event_type : String
  year : Int
  start_date : Option String := none
  end_date : Option String := none
  countries : Option Int := none
  events : Option Int := none
  sports : Option Int := none
  participants_m : Option Int := none
  participants_f : Option Int := none
  participants : Option Int := none
  highlights : Option String := none
  url : Option String := none
  deriving Repr, DecidableEq

/-- A persisted `Host` table row (`HostBase` of `schemas.py` plus id). -/
structure HostRow where
  id : Nat
  place_name : String
  latitude : Option Rat := none
  longitude : Option Rat := none
  country_id : Option Nat := none
  deriving Repr, DecidableEq

/-- A persisted `Country` table row (`CountryBase` of `schemas.py` plus id). -/
structure CountryRow where
  id : Nat
  country_name : String
  deriving Repr, DecidableEq

/-- A persisted `Response` table row (`ResponseBase` of `schemas.py` plus id). -/
structure ResponseRow where
  id : Nat
  question_id : Option Nat := none
  response_text : String
  is_correct : Bool
  deriving Repr, DecidableEq

/-- Raw body of a Games create request (after the web framework's type
coercion, before the pydantic field validators run). -/
structure GamesCreateInput where
  event_type : String
  year : Int
  start_date : Option String := none
  end_date : Option String := none
  countries : Option Int := none
  events : Option Int := none
  sports : Option Int := none
  participants_m : Option Int := none
  participants_f : Option Int := none
  participants : Option Int := none
  highlights : Option String := none
  url : Option String := none
  deriving Repr, DecidableEq

/-- A validated `GamesCreate` value (`schemas.py`): same fields as the input,
with `event_type` normalized and `year` range-checked. -/
structure GamesCreate where
  event_type : String
  year : Int
  start_date : Option String := none
  end_date : Option String := none
  countries : Option Int := none
  events : Option Int := none
  sports : Option Int := none
  participants_m : Option Int := none
  participants_f : Option Int := none
  participants : Option Int := none
  highlights : Option String := none
  url : Option String := none
  deriving Repr, DecidableEq

/-- A validated `GamesUpdate` value (`schemas.py`): all fields optional for
partial updates; `none` means the field was not supplied in the request, so
`model_dump(exclude_unset=True)` omits it. -/
structure GamesUpdate where
  event_type : Option String := none
  year : Option Int := none
  start_date : Option String := none
  end_date : Option String := none
  countries : Option Int := none
  events : Option Int := none
  sports : Option Int := none
  participants_m : Option Int := none
  participants_f : Option Int := none
  participants : Option Int := none
  highlights : Option String := none
  url : Option String := none
  deriving Repr, DecidableEq

/-- `GamesBase.validate_event_type` (`schemas.py` lines 40-47): lower-case the
input, fail if not in `["winter", "summer"]`, otherwise return the lowered
value. -/
def validate_event_type (value : String) : Except String String :=
  if strLower value ∈ ["winter", "summer"] then .ok (strLower value)
  else .error (strLower value ++ " is not in [winter, summer]")

/-- `GamesBase.validate_year` (`schemas.py` lines 49-55): fail if the value is
outside `[1960, 9999]` (the `int(value)` coercion is the identity here since
`year` is already an integer). -/
def validate_year (value : Int) : Except String Int :=
  if value < 1960 ∨ value > 9999 then
    .error (toString value ++ " must be between 1960 and 9999")
  else .ok value

/-- `GamesUpdate.validate_event_type` (`schemas.py` lines 84-92): skip `None`,
otherwise the same rule as `GamesBase.validate_event_type`. -/
def validate_event_type_opt : Option String → Except String (Option String)
  | none => .ok none
  | some v => (validate_event_type v).map some

/-- `GamesUpdate.validate_year` (`schemas.py` lines 94-101): skip `None`,
otherwise the same rule as `GamesBase.validate_year`. -/
def validate_year_opt : Option Int → Except String (Option Int)
  | none => .ok none
  | some v => (validate_year v).map some

/-- Pydantic construction of a `GamesCreate` from a request body: run the two
field validators, pass all other fields through. -/
def gamesCreate_validate (i : GamesCreateInput) : Except String GamesCreate :=
  match validate_event_type i.event_type with
  | .error m => .error m
  | .ok et =>
    match validate_year i.year with
    | .error m => .error m
    | .ok y =>
      .ok { event_type := et, year := y, start_date := i.start_date,
            end_date := i.end_date, countries := i.countries,
            events := i.events, sports := i.sports,
            participants_m := i.participants_m,
            participants_f := i.participants_f,
            participants := i.participants,
            highlights := i.highlights, url := i.url }

/-- Raw body of a PATCH request: every field optional, `none` = absent. -/
structure GamesUpdateInput where
  event_type : Option String := none
  year : Option Int := none
  start_date : Option String := none
  end_date : Option String := none
  countries : Option Int := none
  events : Option Int := none
  sports : Option Int := none
  participants_m : Option Int := none
  participants_f : Option Int := none
  participants : Option Int := none
  highlights : Option String := none
  url : Option String := none
  deriving Repr, DecidableEq

/-- Pydantic construction of a `GamesUpdate` from a PATCH body. -/
def gamesUpdate_validate (i : GamesUpdateInput) : Except String GamesUpdate :=
  match validate_event_type_opt i.event_type with
  | .error m => .error m
  | .ok et =>
    match validate_year_opt i.year with
    | .error m => .error m
    | .ok y =>
      .ok { event_type := et, year := y, start_date := i.start_date,
            end_date := i.end_date, countries := i.countries,
            events := i.events, sports := i.sports,
            participants_m := i.participants_m,
            participants_f := i.participants_f,
            participants := i.participants,
            highlights := i.highlights, url := i.url }

/-- `GamesService.get_games_by_id` (`games_service.py` lines 28-44):
`session.get(Games, games_id)` is primary-key lookup, modelled as first match
in the row list; `if not result` raises 404. -/
def get_games_by_id (session : List GamesRow) (games_id : Nat) :
    Except HTTPError GamesRow :=
  match session.find? (fun g => g.id == games_id) with
  | none => .error ⟨404, "Games with id " ++ toString games_id ++ " not found"⟩
  | some g => .ok g

/-- `GamesService.get_games` (`games_service.py` lines 46-51): select all rows;
`if not result: return []` then `return list(result)`. -/
def get_games (session : List GamesRow) : List GamesRow :=
  if session.isEmpty then [] else session

/-- Auto-increment id assignment performed by the database on insert. -/
def nextId (session : List GamesRow) : Nat :=
  (session.foldl (fun m g => max m g.id) 0) + 1

/-- `Games.model_validate(games_create)` followed by insert: build the new row
from the validated create data with the generated id. -/
def newGamesRow (session : List GamesRow) (gc : GamesCreate) : GamesRow :=
  { id := nextId session, event_type := gc.event_type, year := gc.year,
    start_date := gc.start_date, end_date := gc.end_date,
    countries := gc.countries, events := gc.events, sports := gc.sports,
    participants_m := gc.participants_m, participants_f := gc.participants_f,
    participants := gc.participants, highlights := gc.highlights,
    url := gc.url }

/-- `GamesService.create_games` (`games_service.py` lines 105-125), success
path: add the row, commit, return it.  (The `SQLAlchemyError` branch rolls
back and raises 500; storage faults are outside this pure model.) -/
def create_games (session : List GamesRow) (gc : GamesCreate) :
    List GamesRow × GamesRow :=
  let new_games := newGamesRow session gc
  (session ++ [new_games], new_games)

/-- Replace the first row whose id matches (the ORM mutates the fetched row
object in place; the row list keeps its position). -/
def setGames : List GamesRow → Nat → GamesRow → List GamesRow
  | [], _, _ => []
  | g :: rest, gid, g2 =>
      if g.id == gid then g2 :: rest else g :: setGames rest gid g2

/-- Remove the first row whose id matches (`session.delete(games)`). -/
def removeGames : List GamesRow → Nat → List GamesRow
  | [], _ => []
  | g :: rest, gid => if g.id == gid then rest else g :: removeGames rest gid

/-- Python truthiness of a fetched ORM row object: a plain object with no
`len`/`bool` override is always truthy. -/
def gamesIsTruthy (_ : GamesRow) : Bool := true

/-- `GamesService.delete_games` (`games_service.py` lines 127-143):
`get_games_by_id` (raises 404 if absent), then the literal
`if not games: return None else: delete; commit; return \x7b\x7d` —
`.ok none` models the `return None` branch, `.ok (some session2)` models
returning the empty dict with the new store contents. -/
def delete_games (session : List GamesRow) (games_id : Nat) :
    Except HTTPError (Option (List GamesRow)) :=
  match get_games_by_id session games_id with
  | .error e => .error e
  | .ok games =>
      if ¬ gamesIsTruthy games then .ok none
      else .ok (some (removeGames session games_id))

/-- Apply a PATCH dict `data.model_dump(exclude_unset=True)` to a fetched row
via the `setattr` loop of `GamesService.update_games` (lines 163-164): only
the supplied keys are written. -/
def applyPatch (g : GamesRow) (p : GamesUpdate) : GamesRow :=
  { id := g.id,
    event_type := p.event_type.getD g.event_type,
    year := p.year.getD g.year,
    start_date := (p.start_date.map some).getD g.start_date,
    end_date := (p.end_date.map some).getD g.end_date,
    countries := (p.countries.map some).getD g.countries,
    events := (p.events.map some).getD g.events,
    sports := (p.sports.map some).getD g.sports,
    participants_m := (p.participants_m.map some).getD g.participants_m,
    participants_f := (p.participants_f.map some).getD g.participants_f,
    participants := (p.participants.map some).getD g.participants,
    highlights := (p.highlights.map some).getD g.highlights,
    url := (p.url.map some).getD g.url }

/-- Apply a PUT dict `data.model_dump()` of a full `GamesCreate` body via the
same `setattr` loop: every schema field is present in the dict, so every
column except the id is overwritten (optionals possibly to `None`). -/
def applyFull (g : GamesRow) (gc : GamesCreate) : GamesRow :=
  { id := g.id, event_type := gc.event_type, year := gc.year,
    start_date := gc.start_date, end_date := gc.end_date,
    countries := gc.countries, events := gc.events, sports := gc.sports,
    participants_m := gc.participants_m, participants_f := gc.participants_f,
    participants := gc.participants, highlights := gc.highlights,
    url := gc.url }

/-- `GamesService.update_games` (`games_service.py` lines 145-168) as called
from the PATCH route with `update_data = data.model_dump(exclude_unset=True)`:
fetch (raises 404 if absent — the `if games is None` branch is unreachable),
apply the supplied fields, commit, return the updated row.  The second
component is the store after the call (unchanged on error). -/
def update_games_patch (session : List GamesRow) (games_id : Nat)
    (p : GamesUpdate) : Except HTTPError GamesRow × List GamesRow :=
  match get_games_by_id session games_id with
  | .error e => (.error e, session)
  | .ok games =>
      let g2 := applyPatch games p
      (.ok g2, setGames session games_id g2)

/-- `GamesService.update_games` as called from the PUT route with
`update_data = data.model_dump()` of a full `GamesCreate` body. -/
def update_games_full (session : List GamesRow) (games_id : Nat)
    (gc : GamesCreate) : Except HTTPError GamesRow × List GamesRow :=
  match get_games_by_id session games_id with
  | .error e => (.error e, session)
  | .ok games =>
      let g2 := applyFull games gc
      (.ok g2, setGames session games_id g2)

/-- `POST /games` (`games_router.py`): pydantic validates the body (a failure
is a 422 response and the store is untouched), then `create_games` runs. -/
def post_games (session : List GamesRow) (body : GamesCreateInput) :
    Except HTTPError GamesRow × List GamesRow :=
  match gamesCreate_validate body with
  | .error m => (.error ⟨422, m⟩, session)
  | .ok gc =>
      let r := create_games session gc
      (.ok r.2, r.1)

/-- `PUT /games/{games_id}` (`games_router.py`): the body validates against
the full `GamesCreate` schema, then `update_games` with the full dump. -/
def put_games (session : List GamesRow) (games_id : Nat)
    (body : GamesCreateInput) : Except HTTPError GamesRow × List GamesRow :=
  match gamesCreate_validate body with
  | .error m => (.error ⟨422, m⟩, session)
  | .ok gc => update_games_full session games_id gc

/-- `PATCH /games/{games_id}` (`games_router.py`): the body validates against
`GamesUpdate`, then `update_games` with the `exclude_unset` dump. -/
def patch_games (session : List GamesRow) (games_id : Nat)
    (body : GamesUpdateInput) : Except HTTPError GamesRow × List GamesRow :=
  match gamesUpdate_validate body with
  | .error m => (.error ⟨422, m⟩, session)
  | .ok p => update_games_patch session games_id p

/-- `QuizService.get_responses_by_question` (`quiz_service.py` lines 66-73):
select the responses whose `question_id` equals the argument; raise 404 if
there are none (a SQL `=` never matches a NULL `question_id`). -/
def get_responses_by_question (session : List ResponseRow) (q_id : Nat) :
    Except HTTPError (List ResponseRow) :=
  if (session.filter (fun r => r.question_id == some q_id)).isEmpty then
    .error ⟨404, "No responses found for question with id " ++ toString q_id⟩
  else .ok (session.filter (fun r => r.question_id == some q_id))

/-- The tables of the paralympics store that the chart query touches.
Modelled from the spec: the table module `backend/models/models.py` is absent
from the sources, so the `Games.hosts` relationship joined by
`get_chart_data` is modelled, per the spec (each Games edition "related to
exactly one Host record per edition (join key implicit via a 'hosts'
relationship)"), as an association list of (Games id, Host id) pairs. -/
structure ChartDB where
  games : List GamesRow
  hosts : List HostRow
  countries : List CountryRow
  games_hosts : List (Nat × Nat)
  deriving Repr, DecidableEq

/-- One flattened record of the chart query: exactly the 14 selected columns,
in the order of the `select` in `games_service.py` lines 63-78. -/
structure ChartRow where
  country_name : String
  event_type : String
  year : Int
  start_date : Option String
  end_date : Option String
  place_name : String
  events : Option Int
  sports : Option Int
  countries : Option Int
  participants_m : Option Int
  participants_f : Option Int
  participants : Option Int
  latitude : Option Rat
  longitude : Option Rat
  deriving Repr, DecidableEq

/-- `dict(zip(column_names, row))` for one joined tuple: the 14 fields. -/
def chartRow (g : GamesRow) (h : HostRow) (c : CountryRow) : ChartRow :=
  { country_name := c.country_name, event_type := g.event_type,
    year := g.year, start_date := g.start_date, end_date := g.end_date,
    place_name := h.place_name, events := g.events, sports := g.sports,
    countries := g.countries, participants_m := g.participants_m,
    participants_f := g.participants_f, participants := g.participants,
    latitude := h.latitude, longitude := h.longitude }

/-- Whether a Host row is linked to a Games row by the hosts relationship. -/
def hostLinked (db : ChartDB) (g : GamesRow) (h : HostRow) : Bool :=
  db.games_hosts.contains (g.id, h.id)

/-- The Country leg of the join for one (Games, Host) pair: the inner join
`Country on Host.country_id = Country.id`, each tuple mapped to a record. -/
def hostCountryRows (db : ChartDB) (g : GamesRow) (h : HostRow) :
    List ChartRow :=
  (db.countries.filter (fun c => h.country_id == some c.id)).map
    (fun c => chartRow g h c)

/-- The join rows contributed by one Games row: inner join to its linked
Hosts, then to Country. -/
def gamesJoinRows (db : ChartDB) (g : GamesRow) : List ChartRow :=
  (db.hosts.filter (fun h => hostLinked db g h)).flatMap
    (fun h => hostCountryRows db g h)

/-- The full three-way inner join
`Games ⋈ hosts-relationship ⋈ Country on Host.country_id = Country.id`. -/
def chartJoin (db : ChartDB) : List ChartRow :=
  db.games.flatMap (fun g => gamesJoinRows db g)

/-- `GamesService.get_chart_data` (`games_service.py` lines 53-103): execute
the three-way join, map each tuple to a named record;
`if not data: return []`. -/
def get_chart_data (db : ChartDB) : List ChartRow :=
  if (chartJoin db).isEmpty then [] else chartJoin db

/-- Whether a Games row survives the inner join: it has a linked Host whose
`country_id` resolves to an existing Country. -/
def gamesHasHostCountry (db : ChartDB) (g : GamesRow) : Bool :=
  db.hosts.any (fun h => hostLinked db g h &&
    db.countries.any (fun c => h.country_id == some c.id))

/-- A PATCH body supplying only the `year` field. -/
def onlyYearPatch (y : Int) : GamesUpdateInput := { year := some y }

/-! ### Concrete sample data (used to instantiate the theorems) -/

def sampleGames : GamesRow :=
  { id := 1, event_type := "summer", year := 2021, participants := some 4537 }

def sampleHost : HostRow :=
  { id := 10, place_name := "Tokyo", latitude := some 35,
    longitude := some 139, country_id := some 100 }

def sampleCountry : CountryRow := { id := 100, country_name := "Japan" }

def sampleDB : ChartDB :=
  { games := [sampleGames], hosts := [sampleHost],
    countries := [sampleCountry], games_hosts := [(1, 10)] }

def sampleResponse : ResponseRow :=
  { id := 7, question_id := some 5, response_text := "yes",
    is_correct := true }

/-! ### The Games invariant of the spec -/

/-- The invariant of spec §3: `event_type ∈ {winter, summer}` and
`year ∈ [1960, 9999]`. -/
def GamesInv (g : GamesRow) : Prop :=
  (g.event_type = "winter" ∨ g.event_type = "summer")
    ∧ 1960 ≤ g.year ∧ g.year ≤ 9999

instance (g : GamesRow) : Decidable (GamesInv g) := by
  unfold GamesInv; infer_instance

/-! ### Validator lemmas -/

theorem validate_event_type_ok {v e : String}
    (h : validate_event_type v = .ok e) :
    e = strLower v ∧ (e = "winter" ∨ e = "summer") := by
  unfold validate_event_type at h
  split at h
  · next hmem =>
    simp only [Except.ok.injEq] at h
    subst h
    simp only [List.mem_cons, List.not_mem_nil, or_false] at hmem
    exact ⟨rfl, hmem⟩
  · exact absurd h (by simp)

theorem validate_event_type_mem {v : String}
    (h : strLower v = "winter" ∨ strLower v = "summer") :
    validate_event_type v = .ok (strLower v) := by
  unfold validate_event_type
  split
  · rfl
  · next hmem => exact absurd (by simpa using h) hmem

theorem validate_event_type_not_mem {v : String}
    (h1 : strLower v ≠ "winter") (h2 : strLower v ≠ "summer") :
    validate_event_type v
      = .error (strLower v ++ " is not in [winter, summer]") := by
  unfold validate_event_type
  split
  · next hmem =>
    simp only [List.mem_cons, List.not_mem_nil, or_false] at hmem
    tauto
  · rfl

theorem validate_year_ok {v y : Int} (h : validate_year v = .ok y) :
    y = v ∧ 1960 ≤ y ∧ y ≤ 9999 := by
  unfold validate_year at h
  split at h
  · exact absurd h (by simp)
  · next hcond =>
    push_neg at hcond
    simp only [Except.ok.injEq] at h
    subst h
    exact ⟨rfl, hcond.1, hcond.2⟩

theorem validate_year_in_range {v : Int} (h1 : 1960 ≤ v) (h2 : v ≤ 9999) :
    validate_year v = .ok v := by
  unfold validate_year
  split
  · next hcond => omega
  · rfl

theorem validate_year_out_of_range {v : Int} (h : v < 1960 ∨ 9999 < v) :
    validate_year v = .error (toString v ++ " must be between 1960 and 9999") := by
  unfold validate_year
  split
  · rfl
  · next hcond => exact absurd h hcond

theorem gamesCreate_validate_ok {i : GamesCreateInput} {gc : GamesCreate}
    (h : gamesCreate_validate i = .ok gc) :
    gc.event_type = strLower i.event_type
      ∧ (gc.event_type = "winter" ∨ gc.event_type = "summer")
      ∧ gc.year = i.year ∧ 1960 ≤ gc.year ∧ gc.year ≤ 9999
      ∧ gc.start_date = i.start_date ∧ gc.end_date = i.end_date
      ∧ gc.countries = i.countries ∧ gc.events = i.events
      ∧ gc.sports = i.sports ∧ gc.participants_m = i.participants_m
      ∧ gc.participants_f = i.participants_f
      ∧ gc.participants = i.participants
      ∧ gc.highlights = i.highlights ∧ gc.url = i.url := by
  unfold gamesCreate_validate at h
  cases het : validate_event_type i.event_type with
  | error m => rw [het] at h; exact absurd h (by simp)
  | ok et =>
    cases hy : validate_year i.year with
    | error m => rw [het, hy] at h; exact absurd h (by simp)
    | ok y =>
      rw [het, hy] at h
      simp only [Except.ok.injEq] at h
      subst h
      obtain ⟨he1, he2⟩ := validate_event_type_ok het
      obtain ⟨hy1, hy2, hy3⟩ := validate_year_ok hy
      subst he1 hy1
      exact ⟨rfl, he2, rfl, hy2, hy3, rfl, rfl, rfl, rfl, rfl, rfl, rfl,
        rfl, rfl, rfl⟩

theorem gamesUpdate_validate_ok {i : GamesUpdateInput} {p : GamesUpdate}
    (h : gamesUpdate_validate i = .ok p) :
    (∀ e, p.event_type = some e → e = "winter" ∨ e = "summer")
      ∧ (∀ y, p.year = some y → 1960 ≤ y ∧ y ≤ 9999) := by
  unfold gamesUpdate_validate at h
  cases het : validate_event_type_opt i.event_type with
  | error m => rw [het] at h; exact absurd h (by simp)
  | ok et =>
    cases hy : validate_year_opt i.year with
    | error m => rw [het, hy] at h; exact absurd h (by simp)
    | ok y =>
      rw [het, hy] at h
      simp only [Except.ok.injEq] at h
      subst h
      constructor
      · intro e he
        dsimp only at he
        rw [he] at het
        unfold validate_event_type_opt at het
        cases hin : i.event_type with
        | none => rw [hin] at het; exact absurd het.symm (by simp)
        | some v =>
          rw [hin] at het
          dsimp only at het
          cases hv : validate_event_type v with
          | error m => rw [hv] at het; exact absurd het (by simp [Except.map])
          | ok e2 =>
            rw [hv] at het
            simp only [Except.map, Except.ok.injEq, Option.some.injEq] at het
            exact het ▸ (validate_event_type_ok hv).2
      · intro y2 hy2
        dsimp only at hy2
        rw [hy2] at hy
        unfold validate_year_opt at hy
        cases hin : i.year with
        | none => rw [hin] at hy; exact absurd hy.symm (by simp)
        | some v =>
          rw [hin] at hy
          dsimp only at hy
          cases hv : validate_year v with
          | error m => rw [hv] at hy; exact absurd hy (by simp [Except.map])
          | ok y3 =>
            rw [hv] at hy
            simp only [Except.map, Except.ok.injEq, Option.some.injEq] at hy
            exact hy ▸ (validate_year_ok hv).2

/-! ### Store lookup, replacement and removal lemmas -/

theorem get_games_by_id_ok {s : List GamesRow} {gid : Nat} {g : GamesRow}
    (h : get_games_by_id s gid = .ok g) : g ∈ s ∧ g.id = gid := by
  unfold get_games_by_id at h
  cases hf : s.find? (fun g2 => g2.id == gid) with
  | none => rw [hf] at h; exact absurd h (by simp)
  | some g2 =>
    rw [hf] at h
    simp only [Except.ok.injEq] at h
    subst h
    exact ⟨List.mem_of_find?_eq_some hf, by simpa using List.find?_some hf⟩

theorem get_games_by_id_absent {s : List GamesRow} {gid : Nat}
    (h : ∀ g ∈ s, g.id ≠ gid) :
    get_games_by_id s gid
      = .error ⟨404, "Games with id " ++ toString gid ++ " not found"⟩ := by
  unfold get_games_by_id
  have hf : s.find? (fun g2 => g2.id == gid) = none := by
    rw [List.find?_eq_none]
    intro g hg
    simpa using h g hg
  rw [hf]

theorem get_games_by_id_found {s : List GamesRow} {gid : Nat}
    (h : ∃ g ∈ s, g.id = gid) : ∃ g, get_games_by_id s gid = .ok g := by
  unfold get_games_by_id
  cases hf : s.find? (fun g2 => g2.id == gid) with
  | none =>
    rw [List.find?_eq_none] at hf
    obtain ⟨g, hg, hid⟩ := h
    exact absurd hid (by simpa using hf g hg)
  | some g => exact ⟨g, rfl⟩

theorem setGames_cons_pos {a : GamesRow} {t : List GamesRow} {gid : Nat}
    {g2 : GamesRow} (h : a.id = gid) :
    setGames (a :: t) gid g2 = g2 :: t := by
  simp [setGames, h]

theorem setGames_cons_neg {a : GamesRow} {t : List GamesRow} {gid : Nat}
    {g2 : GamesRow} (h : ¬ a.id = gid) :
    setGames (a :: t) gid g2 = a :: setGames t gid g2 := by
  simp [setGames, h]

theorem removeGames_cons_pos {a : GamesRow} {t : List GamesRow} {gid : Nat}
    (h : a.id = gid) : removeGames (a :: t) gid = t := by
  simp [removeGames, h]

theorem removeGames_cons_neg {a : GamesRow} {t : List GamesRow} {gid : Nat}
    (h : ¬ a.id = gid) : removeGames (a :: t) gid = a :: removeGames t gid := by
  simp [removeGames, h]

theorem mem_setGames {s : List GamesRow} {gid : Nat} {g2 g : GamesRow}
    (h : g ∈ setGames s gid g2) : g = g2 ∨ g ∈ s := by
  induction s with
  | nil => simp [setGames] at h
  | cons a t ih =>
    by_cases ha : a.id = gid
    · rw [setGames_cons_pos ha] at h
      rcases List.mem_cons.1 h with h1 | h1
      · exact Or.inl h1
      · exact Or.inr (List.mem_cons_of_mem a h1)
    · rw [setGames_cons_neg ha] at h
      rcases List.mem_cons.1 h with h1 | h1
      · exact Or.inr (h1 ▸ List.mem_cons_self a t)
      · rcases ih h1 with h2 | h2
        · exact Or.inl h2
        · exact Or.inr (List.mem_cons_of_mem a h2)

theorem find?_setGames {s : List GamesRow} {gid : Nat} {g0 g2 : GamesRow}
    (hf : s.find? (fun g => g.id == gid) = some g0) (hid : g2.id = gid) :
    (setGames s gid g2).find? (fun g => g.id == gid) = some g2 := by
  induction s with
  | nil => simp [List.find?] at hf
  | cons a t ih =>
    by_cases ha : a.id = gid
    · rw [setGames_cons_pos ha]
      simp [List.find?, hid]
    · rw [setGames_cons_neg ha]
      rw [List.find?_cons_of_neg _ (by simpa using ha)] at hf ⊢
      exact ih hf

theorem setGames_setGames {s : List GamesRow} {gid : Nat} {g2 : GamesRow}
    (hid : g2.id = gid) :
    setGames (setGames s gid g2) gid g2 = setGames s gid g2 := by
  induction s with
  | nil => rfl
  | cons a t ih =>
    by_cases ha : a.id = gid
    · rw [setGames_cons_pos ha, setGames_cons_pos hid]
    · rw [setGames_cons_neg ha, setGames_cons_neg ha, ih]

theorem mem_removeGames {s : List GamesRow} {gid : Nat} {g : GamesRow}
    (h : g ∈ removeGames s gid) : g ∈ s := by
  induction s with
  | nil => simp [removeGames] at h
  | cons a t ih =>
    by_cases ha : a.id = gid
    · rw [removeGames_cons_pos ha] at h
      exact List.mem_cons_of_mem a h
    · rw [removeGames_cons_neg ha] at h
      rcases List.mem_cons.1 h with h1 | h1
      · exact h1 ▸ List.mem_cons_self a t
      · exact List.mem_cons_of_mem a (ih h1)

theorem find?_removeGames_of_nodup {s : List GamesRow} {gid : Nat}
    (hnd : (s.map (fun g => g.id)).Nodup) :
    (removeGames s gid).find? (fun g => g.id == gid) = none := by
  induction s with
  | nil => simp [removeGames, List.find?]
  | cons a t ih =>
    rw [List.map_cons, List.nodup_cons] at hnd
    by_cases ha : a.id = gid
    · rw [removeGames_cons_pos ha]
      rw [List.find?_eq_none]
      intro g hg hid
      have hgid : g.id = gid := by simpa using hid
      exact hnd.1 (by
        rw [ha, ← hgid]
        exact List.mem_map_of_mem (fun g2 => g2.id) hg)
    · rw [removeGames_cons_neg ha]
      rw [List.find?_cons_of_neg _ (by simpa using ha)]
      exact ih hnd.2

theorem get_games_by_id_eq_ok {s : List GamesRow} {gid : Nat} {g : GamesRow} :
    get_games_by_id s gid = .ok g
      ↔ s.find? (fun g2 => g2.id == gid) = some g := by
  unfold get_games_by_id
  cases hf : s.find? (fun g2 => g2.id == gid) <;> simp

/-! ### Patch application lemmas -/

theorem opt_getD_idem {α : Type} (o : Option α) (x : α) :
    o.getD (o.getD x) = o.getD x := by
  cases o <;> rfl

theorem applyPatch_id (g : GamesRow) (p : GamesUpdate) :
    (applyPatch g p).id = g.id := rfl

theorem applyPatch_idem (g : GamesRow) (p : GamesUpdate) :
    applyPatch (applyPatch g p) p = applyPatch g p := by
  simp only [applyPatch, opt_getD_idem]

theorem applyFull_id (g : GamesRow) (gc : GamesCreate) :
    (applyFull g gc).id = g.id := rfl

theorem applyFull_idem (g : GamesRow) (gc : GamesCreate) :
    applyFull (applyFull g gc) gc = applyFull g gc := rfl

theorem applyPatch_inv {g : GamesRow} {p : GamesUpdate}
    (hg : GamesInv g)
    (hp1 : ∀ e, p.event_type = some e → e = "winter" ∨ e = "summer")
    (hp2 : ∀ y, p.year = some y → 1960 ≤ y ∧ y ≤ 9999) :
    GamesInv (applyPatch g p) := by
  unfold GamesInv at hg ⊢
  refine ⟨?_, ?_, ?_⟩
  · cases he : p.event_type with
    | none => simpa [applyPatch, he] using hg.1
    | some e => simpa [applyPatch, he] using hp1 e he
  · cases hy : p.year with
    | none => simpa [applyPatch, hy] using hg.2.1
    | some y => simpa [applyPatch, hy] using (hp2 y hy).1
  · cases hy : p.year with
    | none => simpa [applyPatch, hy] using hg.2.2
    | some y => simpa [applyPatch, hy] using (hp2 y hy).2

theorem applyFull_inv {g : GamesRow} {gc : GamesCreate}
    (h1 : gc.event_type = "winter" ∨ gc.event_type = "summer")
    (h2 : 1960 ≤ gc.year) (h3 : gc.year ≤ 9999) :
    GamesInv (applyFull g gc) := ⟨h1, h2, h3⟩

theorem newGamesRow_inv {s : List GamesRow} {gc : GamesCreate}
    (h1 : gc.event_type = "winter" ∨ gc.event_type = "summer")
    (h2 : 1960 ≤ gc.year) (h3 : gc.year ≤ 9999) :
    GamesInv (newGamesRow s gc) := ⟨h1, h2, h3⟩

/-! ### Chart join lemmas -/

theorem get_chart_data_eq_chartJoin (db : ChartDB) :
    get_chart_data db = chartJoin db := by
  unfold get_chart_data
  by_cases h : (chartJoin db).isEmpty
  · rw [if_pos h, List.isEmpty_iff.1 h]
  · rw [if_neg h]

theorem filter_countries_length {l : List CountryRow} {o : Option Nat}
    (hnd : (l.map (fun c => c.id)).Nodup) :
    (l.filter (fun c => o == some c.id)).length
      = if l.any (fun c => o == some c.id) then 1 else 0 := by
  induction l with
  | nil => rfl
  | cons a t ih =>
    rw [List.map_cons, List.nodup_cons] at hnd
    rw [List.filter_cons, List.any_cons]
    by_cases ha : (o == some a.id) = true
    · rw [if_pos ha]
      have ht : t.filter (fun c => o == some c.id) = [] := by
        rw [List.filter_eq_nil_iff]
        intro c hc hco
        have h1 : o = some a.id := by simpa using ha
        have h2 : o = some c.id := by simpa using hco
        apply hnd.1
        have hac : a.id = c.id := by
          rw [h1] at h2
          simpa using h2
        rw [hac]
        exact List.mem_map_of_mem (fun c2 => c2.id) hc
      rw [ht]
      simp [ha]
    · rw [if_neg ha]
      have hao : (o == some a.id) = false := by
        simpa using ha
      rw [hao, Bool.false_or]
      exact ih hnd.2

theorem length_flatMap_pred {α β : Type} (l : List α) (f : α → List β)
    (p : α → Bool) (hf : ∀ a ∈ l, (f a).length = if p a then 1 else 0) :
    (l.flatMap f).length = (l.filter p).length := by
  induction l with
  | nil => rfl
  | cons a t ih =>
    rw [List.flatMap_cons, List.length_append,
      hf a (List.mem_cons_self a t), List.filter_cons]
    by_cases hp : p a = true
    · rw [if_pos hp, if_pos hp, List.length_cons,
        ih (fun x hx => hf x (List.mem_cons_of_mem a hx))]
      omega
    · rw [if_neg hp, if_neg hp,
        ih (fun x hx => hf x (List.mem_cons_of_mem a hx))]
      omega

theorem gamesJoinRows_length (db : ChartDB) (g : GamesRow)
    (hhost : (db.hosts.filter (fun h => hostLinked db g h)).length ≤ 1)
    (hcid : (db.countries.map (fun c => c.id)).Nodup) :
    (gamesJoinRows db g).length
      = if gamesHasHostCountry db g then 1 else 0 := by
  unfold gamesJoinRows gamesHasHostCountry
  rcases hfl : db.hosts.filter (fun h => hostLinked db g h) with
    _ | ⟨h1, _ | ⟨h2, t⟩⟩
  · have hfalse : db.hosts.any (fun h => hostLinked db g h
        && db.countries.any (fun c => h.country_id == some c.id))
        = false := by
      rw [Bool.eq_false_iff]
      intro htrue
      rw [List.any_eq_true] at htrue
      obtain ⟨h, hmem, hb⟩ := htrue
      rw [Bool.and_eq_true] at hb
      have hmf : h ∈ db.hosts.filter (fun h => hostLinked db g h) :=
        List.mem_filter.2 ⟨hmem, hb.1⟩
      rw [hfl] at hmf
      exact absurd hmf (List.not_mem_nil h)
    rw [hfalse]
    rfl
  · have huniq : ∀ h ∈ db.hosts, hostLinked db g h = true → h = h1 := by
      intro h hmem hl
      have hmf : h ∈ db.hosts.filter (fun h => hostLinked db g h) :=
        List.mem_filter.2 ⟨hmem, hl⟩
      rw [hfl] at hmf
      simpa using hmf
    have hmem1 : h1 ∈ db.hosts ∧ hostLinked db g h1 = true := by
      have hmf : h1 ∈ db.hosts.filter (fun h => hostLinked db g h) := by
        rw [hfl]
        exact List.mem_singleton.2 rfl
      simpa [List.mem_filter] using hmf
    have hany : db.hosts.any (fun h => hostLinked db g h
        && db.countries.any (fun c => h.country_id == some c.id))
        = db.countries.any (fun c => h1.country_id == some c.id) := by
      cases hc : db.countries.any (fun c => h1.country_id == some c.id) with
      | true =>
        rw [List.any_eq_true]
        exact ⟨h1, hmem1.1, by rw [Bool.and_eq_true]; exact ⟨hmem1.2, hc⟩⟩
      | false =>
        rw [Bool.eq_false_iff]
        intro htrue
        rw [List.any_eq_true] at htrue
        obtain ⟨h, hmem, hb⟩ := htrue
        rw [Bool.and_eq_true] at hb
        rw [huniq h hmem hb.1] at hb
        rw [hb.2] at hc
        exact Bool.noConfusion hc
    rw [hany]
    have hlen : (hostCountryRows db g h1).length
        = if db.countries.any (fun c => h1.country_id == some c.id)
          then 1 else 0 := by
      unfold hostCountryRows
      rw [List.length_map]
      exact filter_countries_length hcid
    simpa [List.flatMap_cons, List.flatMap_nil] using hlen
  · rw [hfl] at hhost
    simp at hhost

/-! ### Endpoint unfolding lemmas -/

theorem post_games_err {session : List GamesRow} {body : GamesCreateInput}
    {m : String} (hv : gamesCreate_validate body = .error m) :
    post_games session body = (.error ⟨422, m⟩, session) := by
  unfold post_games
  rw [hv]

theorem post_games_ok {session : List GamesRow} {body : GamesCreateInput}
    {gc : GamesCreate} (hv : gamesCreate_validate body = .ok gc) :
    post_games session body
      = (.ok (newGamesRow session gc), session ++ [newGamesRow session gc]) := by
  unfold post_games
  rw [hv]
  rfl

theorem put_games_err {session : List GamesRow} {gid : Nat}
    {body : GamesCreateInput} {m : String}
    (hv : gamesCreate_validate body = .error m) :
    put_games session gid body = (.error ⟨422, m⟩, session) := by
  unfold put_games
  rw [hv]

theorem put_games_ok {session : List GamesRow} {gid : Nat}
    {body : GamesCreateInput} {gc : GamesCreate}
    (hv : gamesCreate_validate body = .ok gc) :
    put_games session gid body = update_games_full session gid gc := by
  unfold put_games
  rw [hv]

theorem patch_games_err {session : List GamesRow} {gid : Nat}
    {body : GamesUpdateInput} {m : String}
    (hv : gamesUpdate_validate body = .error m) :
    patch_games session gid body = (.error ⟨422, m⟩, session) := by
  unfold patch_games
  rw [hv]

theorem patch_games_ok {session : List GamesRow} {gid : Nat}
    {body : GamesUpdateInput} {p : GamesUpdate}
    (hv : gamesUpdate_validate body = .ok p) :
    patch_games session gid body = update_games_patch session gid p := by
  unfold patch_games
  rw [hv]

theorem update_games_patch_err {session : List GamesRow} {gid : Nat}
    {p : GamesUpdate} {e : HTTPError}
    (h : get_games_by_id session gid = .error e) :
    update_games_patch session gid p = (.error e, session) := by
  unfold update_games_patch
  rw [h]

theorem update_games_patch_ok {session : List GamesRow} {gid : Nat}
    {p : GamesUpdate} {g0 : GamesRow}
    (h : get_games_by_id session gid = .ok g0) :
    update_games_patch session gid p
      = (.ok (applyPatch g0 p), setGames session gid (applyPatch g0 p)) := by
  unfold update_games_patch
  rw [h]

theorem update_games_full_err {session : List GamesRow} {gid : Nat}
    {gc : GamesCreate} {e : HTTPError}
    (h : get_games_by_id session gid = .error e) :
    update_games_full session gid gc = (.error e, session) := by
  unfold update_games_full
  rw [h]

theorem update_games_full_ok {session : List GamesRow} {gid : Nat}
    {gc : GamesCreate} {g0 : GamesRow}
    (h : get_games_by_id session gid = .ok g0) :
    update_games_full session gid gc
      = (.ok (applyFull g0 gc), setGames session gid (applyFull g0 gc)) := by
  unfold update_games_full
  rw [h]

/-! ### Claims -/

/-- C3: every Games creation request whose `year` lies outside `[1960, 9999]`
fails with a 422 validation error and the stored state is unchanged (no row
is persisted). -/
theorem claim_C3_create_year_out_of_range_rejected (session : List GamesRow)
    (body : GamesCreateInput)
    (hy : body.year < 1960 ∨ 9999 < body.year) :
    ∃ m, post_games session body = (.error ⟨422, m⟩, session) := by
  unfold post_games gamesCreate_validate
  cases het : validate_event_type body.event_type with
  | error m => exact ⟨m, rfl⟩
  | ok et =>
    rw [validate_year_out_of_range hy]
    exact ⟨_, rfl⟩

/-- C3 witness: creating with year 1959 into the singleton store fails with a
422 and leaves the store unchanged. -/
theorem claim_C3_witness :
    ∃ m, post_games [sampleGames] { event_type := "summer", year := 1959 }
      = (.error ⟨422, m⟩, [sampleGames]) :=
  claim_C3_create_year_out_of_range_rejected [sampleGames]
    { event_type := "summer", year := 1959 } (by decide)

/-- C4: a Games creation request whose `event_type` is any casing of
"winter"/"summer" succeeds with respect to that field and persists the
lower-cased value; any `event_type` whose lower-casing is not in
{"winter", "summer"} is rejected with a 422. -/
theorem claim_C4_create_event_type_casing (session : List GamesRow)
    (body : GamesCreateInput) :
    ((strLower body.event_type = "winter"
        ∨ strLower body.event_type = "summer") →
      1960 ≤ body.year → body.year ≤ 9999 →
      ∃ g s2, post_games session body = (.ok g, s2)
        ∧ g.event_type = strLower body.event_type ∧ g ∈ s2)
    ∧ (strLower body.event_type ≠ "winter" →
       strLower body.event_type ≠ "summer" →
       ∃ m, post_games session body = (.error ⟨422, m⟩, session)) := by
  constructor
  · intro hcase hy1 hy2
    unfold post_games gamesCreate_validate
    rw [validate_event_type_mem hcase, validate_year_in_range hy1 hy2]
    refine ⟨_, _, rfl, rfl, ?_⟩
    unfold create_games
    exact List.mem_append_right _ (List.mem_singleton.2 rfl)
  · intro h1 h2
    unfold post_games gamesCreate_validate
    rw [validate_event_type_not_mem h1 h2]
    exact ⟨_, rfl⟩

/-- C4 witness: creating with event_type "Summer" persists "summer"; creating
with event_type "autumn" is rejected with a 422. -/
theorem claim_C4_witness :
    (∃ g s2,
        post_games [] { event_type := "Summer", year := 2021 } = (.ok g, s2)
          ∧ g.event_type = strLower "Summer" ∧ g ∈ s2)
    ∧ ∃ m, post_games [] { event_type := "autumn", year := 2021 }
        = (.error ⟨422, m⟩, []) :=
  ⟨(claim_C4_create_event_type_casing [] { event_type := "Summer", year := 2021 }).1
      (by decide) (by decide) (by decide),
   (claim_C4_create_event_type_casing [] { event_type := "autumn", year := 2021 }).2
      (by decide) (by decide)⟩

/-- C8: looking up an id not present in the store fails with a 404 NotFound,
and listing all Games of an empty store returns the empty collection. -/
theorem claim_C8_get_missing_and_get_all_empty (session : List GamesRow)
    (gid : Nat) (habs : ∀ g ∈ session, g.id ≠ gid) :
    get_games_by_id session gid
      = .error ⟨404, "Games with id " ++ toString gid ++ " not found"⟩
    ∧ get_games [] = [] :=
  ⟨get_games_by_id_absent habs, rfl⟩

/-- C8 witness: id 2 is absent from the singleton store, so the lookup is a
404; the empty store lists to the empty collection. -/
theorem claim_C8_witness :
    get_games_by_id [sampleGames] 2
      = .error ⟨404, "Games with id " ++ toString 2 ++ " not found"⟩
    ∧ get_games [] = [] :=
  claim_C8_get_missing_and_get_all_empty [sampleGames] 2 (by decide)

/-- C9: `get_responses_by_question` fails with a 404 exactly when zero
Response rows carry the argument question id (regardless of whether the
question exists), and otherwise returns all the Response rows whose
`question_id` equals the argument. -/
theorem claim_C9_responses_by_question (session : List ResponseRow)
    (q_id : Nat) :
    ((∀ r ∈ session, r.question_id ≠ some q_id) →
      get_responses_by_question session q_id
        = .error ⟨404,
            "No responses found for question with id " ++ toString q_id⟩)
    ∧ (∀ r0, r0 ∈ session → r0.question_id = some q_id →
      get_responses_by_question session q_id
        = .ok (session.filter (fun r => r.question_id == some q_id))) := by
  constructor
  · intro h
    unfold get_responses_by_question
    have hf : session.filter (fun r => r.question_id == some q_id) = [] := by
      rw [List.filter_eq_nil_iff]
      intro r hr
      simpa using h r hr
    rw [hf]
    rfl
  · intro r0 hr0 hq
    unfold get_responses_by_question
    rw [if_neg]
    intro hemp
    rw [List.isEmpty_iff, List.filter_eq_nil_iff] at hemp
    exact hemp r0 hr0 (by simpa using hq)

/-- C9 witness: a store with one response for question 5 returns exactly the
matching responses for question 5, and a 404 for question 6. -/
theorem claim_C9_witness :
    get_responses_by_question [sampleResponse] 5
      = .ok ([sampleResponse].filter (fun r => r.question_id == some 5))
    ∧ get_responses_by_question [sampleResponse] 6
      = .error ⟨404,
          "No responses found for question with id " ++ toString 6⟩ :=
  ⟨(claim_C9_responses_by_question [sampleResponse] 5).2 sampleResponse
      (by decide) (by decide),
   (claim_C9_responses_by_question [sampleResponse] 6).1 (by decide)⟩

/-- C10: `delete_games` never returns the `None` branch value — the internal
lookup raises 404 first, so that branch is unreachable — and it returns the
empty-dict success value exactly when a row with the id existed. -/
theorem claim_C10_delete_never_none (session : List GamesRow) (gid : Nat) :
    delete_games session gid ≠ .ok none
    ∧ ((∃ s2, delete_games session gid = .ok (some s2))
        ↔ ∃ g ∈ session, g.id = gid) := by
  unfold delete_games
  cases hget : get_games_by_id session gid with
  | error e =>
    refine ⟨by simp, ?_, ?_⟩
    · rintro ⟨s2, hs2⟩
      exact absurd hs2 (by simp)
    · intro hex
      obtain ⟨g, hg⟩ := get_games_by_id_found hex
      rw [hget] at hg
      exact absurd hg (by simp)
  | ok g =>
    have hT : gamesIsTruthy g = true := rfl
    refine ⟨by simp [hT], ?_, ?_⟩
    · intro _
      obtain ⟨hmem, hid⟩ := get_games_by_id_ok hget
      exact ⟨g, hmem, hid⟩
    · intro _
      exact ⟨removeGames session gid, by simp [hT]⟩

/-- C10 witness: deleting the present id 1 succeeds, which certifies that a
row with id 1 existed in the store. -/
theorem claim_C10_witness : ∃ g ∈ [sampleGames], g.id = 1 :=
  (claim_C10_delete_never_none [sampleGames] 1).2.1 ⟨[], by decide⟩

/-- C1: under primary-key uniqueness of Country ids and at most one linked
Host per Games row (the spec fixes exactly one), `get_chart_data` returns one
flattened 14-field record (a `ChartRow`, built by `chartRow`) per Games row
whose linked Host has a `country_id` resolving to an existing Country; Games
without such a Host/Country are excluded, and the result is empty when no
such row exists. -/
theorem claim_C1_chart_data (db : ChartDB)
    (hhost : ∀ g ∈ db.games,
      (db.hosts.filter (fun h => hostLinked db g h)).length ≤ 1)
    (hcid : (db.countries.map (fun c => c.id)).Nodup) :
    (get_chart_data db).length
        = (db.games.filter (fun g => gamesHasHostCountry db g)).length
    ∧ (∀ r ∈ get_chart_data db, ∃ g ∈ db.games, ∃ h ∈ db.hosts,
        ∃ c ∈ db.countries, hostLinked db g h = true
          ∧ h.country_id = some c.id ∧ r = chartRow g h c)
    ∧ ((∀ g ∈ db.games, gamesHasHostCountry db g = false) →
        get_chart_data db = []) := by
  have hjoin := get_chart_data_eq_chartJoin db
  have hlen : (chartJoin db).length
      = (db.games.filter (fun g => gamesHasHostCountry db g)).length := by
    unfold chartJoin
    exact length_flatMap_pred _ _ _
      (fun g hg => gamesJoinRows_length db g (hhost g hg) hcid)
  refine ⟨by rw [hjoin]; exact hlen, ?_, ?_⟩
  · intro r hr
    rw [hjoin] at hr
    unfold chartJoin gamesJoinRows hostCountryRows at hr
    simp only [List.mem_flatMap, List.mem_map, List.mem_filter] at hr
    obtain ⟨g, hg, h, ⟨hhmem, hlk⟩, c, ⟨hcmem, hcid2⟩, hrr⟩ := hr
    exact ⟨g, hg, h, hhmem, c, hcmem, hlk, by simpa using hcid2, hrr.symm⟩
  · intro hall
    rw [hjoin]
    have hz : (chartJoin db).length = 0 := by
      rw [hlen]
      have hfe : db.games.filter (fun g => gamesHasHostCountry db g) = [] := by
        rw [List.filter_eq_nil_iff]
        intro g hg
        simp [hall g hg]
      rw [hfe]
      rfl
    exact List.length_eq_zero.1 hz

/-- C1 witness: on the sample store (one Games, one linked Host, its Country
present) the chart query returns exactly one record per surviving Games row. -/
theorem claim_C1_witness :
    (get_chart_data sampleDB).length
      = (sampleDB.games.filter (fun g => gamesHasHostCountry sampleDB g)).length :=
  (claim_C1_chart_data sampleDB (by decide) (by decide)).1

/-- C2: if every persisted Games row satisfies the invariant
(`event_type ∈ {winter, summer}` and `1960 ≤ year ≤ 9999`), then after any of
the public HTTP operations POST /games, PUT /games/id, PATCH /games/id every
persisted row still satisfies it; a request failing validation is rejected
with a 422 before persistence and the stored state is unchanged. -/
theorem claim_C2_games_invariant (session : List GamesRow)
    (hinv : ∀ g ∈ session, GamesInv g) :
    (∀ body out s2, post_games session body = (out, s2) →
      ∀ g ∈ s2, GamesInv g)
    ∧ (∀ gid body out s2, put_games session gid body = (out, s2) →
      ∀ g ∈ s2, GamesInv g)
    ∧ (∀ gid body out s2, patch_games session gid body = (out, s2) →
      ∀ g ∈ s2, GamesInv g)
    ∧ (∀ body m, gamesCreate_validate body = .error m →
      post_games session body = (.error ⟨422, m⟩, session))
    ∧ (∀ gid body m, gamesCreate_validate body = .error m →
      put_games session gid body = (.error ⟨422, m⟩, session))
    ∧ (∀ gid body m, gamesUpdate_validate body = .error m →
      patch_games session gid body = (.error ⟨422, m⟩, session)) := by
  refine ⟨?_, ?_, ?_, ?_, ?_, ?_⟩
  · intro body out s2 h g hg
    cases hv : gamesCreate_validate body with
    | error m =>
      rw [post_games_err hv] at h
      injection h with h1 h2
      subst h2
      exact hinv g hg
    | ok gc =>
      rw [post_games_ok hv] at h
      injection h with h1 h2
      subst h2
      rcases List.mem_append.1 hg with hgs | hgn
      · exact hinv g hgs
      · obtain ⟨_, he2, _, hy2, hy3, _⟩ := gamesCreate_validate_ok hv
        rw [List.mem_singleton.1 hgn]
        exact newGamesRow_inv he2 hy2 hy3
  · intro gid body out s2 h g hg
    cases hv : gamesCreate_validate body with
    | error m =>
      rw [put_games_err hv] at h
      injection h with h1 h2
      subst h2
      exact hinv g hg
    | ok gc =>
      rw [put_games_ok hv] at h
      cases hget : get_games_by_id session gid with
      | error e =>
        rw [update_games_full_err hget] at h
        injection h with h1 h2
        subst h2
        exact hinv g hg
      | ok g0 =>
        rw [update_games_full_ok hget] at h
        injection h with h1 h2
        subst h2
        rcases mem_setGames hg with h3 | h3
        · obtain ⟨_, he2, _, hy2, hy3, _⟩ := gamesCreate_validate_ok hv
          rw [h3]
          exact applyFull_inv he2 hy2 hy3
        · exact hinv g h3
  · intro gid body out s2 h g hg
    cases hv : gamesUpdate_validate body with
    | error m =>
      rw [patch_games_err hv] at h
      injection h with h1 h2
      subst h2
      exact hinv g hg
    | ok p =>
      rw [patch_games_ok hv] at h
      cases hget : get_games_by_id session gid with
      | error e =>
        rw [update_games_patch_err hget] at h
        injection h with h1 h2
        subst h2
        exact hinv g hg
      | ok g0 =>
        rw [update_games_patch_ok hget] at h
        injection h with h1 h2
        subst h2
        rcases mem_setGames hg with h3 | h3
        · obtain ⟨hp1, hp2⟩ := gamesUpdate_validate_ok hv
          rw [h3]
          exact applyPatch_inv (hinv g0 (get_games_by_id_ok hget).1) hp1 hp2
        · exact hinv g h3
  · intro body m hv
    exact post_games_err hv
  · intro gid body m hv
    exact put_games_err hv
  · intro gid body m hv
    exact patch_games_err hv

/-- C2 witness: starting from a store satisfying the invariant, the row
persisted by POSTing a "Winter"/2022 body satisfies the invariant. -/
theorem claim_C2_witness :
    GamesInv { id := 2, event_type := "winter", year := 2022 } :=
  (claim_C2_games_invariant [sampleGames] (by decide)).1
    { event_type := "Winter", year := 2022 }
    (post_games [sampleGames] { event_type := "Winter", year := 2022 }).1
    (post_games [sampleGames] { event_type := "Winter", year := 2022 }).2
    rfl { id := 2, event_type := "winter", year := 2022 } (by decide)

/-- C5: a PATCH supplying only `year` on an existing record changes only
`year`: the resulting record is the prior record with `year` replaced, and
the store differs only at that record. -/
theorem claim_C5_patch_only_year (session : List GamesRow) (gid : Nat)
    (g0 : GamesRow) (y : Int)
    (hfound : get_games_by_id session gid = .ok g0)
    (hy1 : 1960 ≤ y) (hy2 : y ≤ 9999) :
    patch_games session gid (onlyYearPatch y)
      = (.ok { g0 with year := y },
         setGames session gid { g0 with year := y }) := by
  have hv : gamesUpdate_validate (onlyYearPatch y)
      = .ok { year := some y } := by
    simp only [onlyYearPatch, gamesUpdate_validate, validate_event_type_opt,
      validate_year_opt, validate_year_in_range hy1 hy2, Except.map]
  rw [patch_games_ok hv, update_games_patch_ok hfound]
  rfl

/-- C5 witness: PATCH {year: 2022} on the stored sample record yields exactly
the sample record with only its year changed. -/
theorem claim_C5_witness :
    patch_games [sampleGames] 1 (onlyYearPatch 2022)
      = (.ok { sampleGames with year := 2022 },
         setGames [sampleGames] 1 { sampleGames with year := 2022 }) :=
  claim_C5_patch_only_year [sampleGames] 1 sampleGames 2022 (by decide)
    (by decide) (by decide)

/-- C6: applying the same update twice is idempotent, for both the PATCH
(partial dict) and PUT (full dict) instantiations of
`GamesService.update_games`: the second application returns the same record
and the same store. -/
theorem claim_C6_update_idempotent (session : List GamesRow) (gid : Nat)
    (p : GamesUpdate) (gc : GamesCreate) (g2 : GamesRow)
    (s2 : List GamesRow) :
    (update_games_patch session gid p = (.ok g2, s2) →
      update_games_patch s2 gid p = (.ok g2, s2))
    ∧ (update_games_full session gid gc = (.ok g2, s2) →
      update_games_full s2 gid gc = (.ok g2, s2)) := by
  constructor
  · intro h
    cases hget : get_games_by_id session gid with
    | error e =>
      rw [update_games_patch_err hget] at h
      injection h with h1 h2
      exact absurd h1 (by simp)
    | ok g0 =>
      rw [update_games_patch_ok hget] at h
      injection h with h1 h2
      have hg2 : applyPatch g0 p = g2 := by simpa using h1
      rw [hg2] at h2
      have hid2 : g2.id = gid := by
        rw [← hg2, applyPatch_id]
        exact (get_games_by_id_ok hget).2
      have hget2 : get_games_by_id s2 gid = .ok g2 := by
        rw [get_games_by_id_eq_ok, ← h2]
        exact find?_setGames (get_games_by_id_eq_ok.1 hget) hid2
      rw [update_games_patch_ok hget2]
      have hpp : applyPatch g2 p = g2 := by
        rw [← hg2, applyPatch_idem]
      rw [hpp, ← h2, setGames_setGames hid2]
  · intro h
    cases hget : get_games_by_id session gid with
    | error e =>
      rw [update_games_full_err hget] at h
      injection h with h1 h2
      exact absurd h1 (by simp)
    | ok g0 =>
      rw [update_games_full_ok hget] at h
      injection h with h1 h2
      have hg2 : applyFull g0 gc = g2 := by simpa using h1
      rw [hg2] at h2
      have hid2 : g2.id = gid := by
        rw [← hg2, applyFull_id]
        exact (get_games_by_id_ok hget).2
      have hget2 : get_games_by_id s2 gid = .ok g2 := by
        rw [get_games_by_id_eq_ok, ← h2]
        exact find?_setGames (get_games_by_id_eq_ok.1 hget) hid2
      rw [update_games_full_ok hget2]
      have hpp : applyFull g2 gc = g2 := by
        rw [← hg2, applyFull_idem]
      rw [hpp, ← h2, setGames_setGames hid2]

/-- C6 witness: re-applying the PATCH {year: 2022} to the store produced by
its first application returns the same record and the same store. -/
theorem claim_C6_witness :
    update_games_patch [{ sampleGames with year := 2022 }] 1
        { year := some 2022 }
      = (.ok { sampleGames with year := 2022 },
         [{ sampleGames with year := 2022 }]) :=
  (claim_C6_update_idempotent [sampleGames] 1 { year := some 2022 }
      { event_type := "summer", year := 2021 }
      { sampleGames with year := 2022 }
      [{ sampleGames with year := 2022 }]).1 (by decide)

/-- C7: under primary-key uniqueness of ids, a successful delete followed by
a lookup of the same id fails with a 404 NotFound — no resurrection. -/
theorem claim_C7_no_resurrection (session : List GamesRow) (gid : Nat)
    (s2 : List GamesRow) (hnd : (session.map (fun g => g.id)).Nodup)
    (hdel : delete_games session gid = .ok (some s2)) :
    get_games_by_id s2 gid
      = .error ⟨404, "Games with id " ++ toString gid ++ " not found"⟩ := by
  unfold delete_games at hdel
  cases hget : get_games_by_id session gid with
  | error e =>
    rw [hget] at hdel
    exact absurd hdel (by simp)
  | ok g =>
    rw [hget] at hdel
    dsimp only at hdel
    have hT : gamesIsTruthy g = true := rfl
    rw [if_neg (by simp [hT])] at hdel
    simp only [Except.ok.injEq, Option.some.injEq] at hdel
    subst hdel
    unfold get_games_by_id
    rw [find?_removeGames_of_nodup hnd]

/-- C7 witness: deleting id 1 from the singleton store empties it, and the
subsequent lookup of id 1 is a 404. -/
theorem claim_C7_witness :
    get_games_by_id [] 1
      = .error ⟨404, "Games with id " ++ toString 1 ++ " not found"⟩ :=
  claim_C7_no_resurrection [sampleGames] 1 [] (by decide) (by decide)

end Paralympics
